import Mathlib

/-!
Shallow embedding of the persistent-actor subsystem of `kameo-persistence`
(crates `kameo-persistence` and `kameo-persistence-macros`).

The embedding covers:
* `Url` — the persistence key (scheme + path), with `toFilePath` mirroring
  `url::Url::to_file_path` (fails when the URL has a non-empty host);
* `Fs` — an abstract model of the file-system operations used by
  `try_read`/`try_write` (`std::fs::read`, `create_dir_all`, `write`),
  as a finite map from paths to nodes (payload file or directory);
* `BiHashMap` — the bidirectional registry container (its source file
  `bi_hash_map.rs` is referenced by `lib.rs` but absent, so it is modelled
  from the spec, §4.1);
* the per-type registry operations generated by the derive macro in
  `kameo-persistence-macros/src/lib.rs` (`register_persistent`,
  `persistence_key`, `lookup_persistent`), including their behaviour on a
  poisoned registry lock;
* the default trait methods of `PersistentActor` in
  `kameo-persistence/src/persistent_actor.rs` (`save_snapshot`,
  `spawn_persistent`, `respawn_persistent`, `try_respawn_persistent`,
  `try_read`, `try_write`), generic over the snapshot codec exactly as the
  Rust trait is generic over `Self::Snapshot : Serialize + Deserialize`;
* `postcard` serialization instantiated at the example actor
  `SubActor { data: String }` from `examples/persistence.rs`
  (a struct with one string field encodes as LEB128 varint length
  followed by the raw bytes).

Actor handles are modelled as numeric ids; `downgrade` is the identity on
ids and `upgrade` succeeds exactly when the id is in the set of live
actors, mirroring kameo's strong/weak `ActorRef` semantics at the level
the spec describes them (§6).
-/

namespace KP

/-- Errors surfaced through `anyhow::Result` by the subsystem. -/
inductive PError : Type where
  /-- "Failed to acquire write lock on registry" in `register_persistent`. -/
  | lockError : PError
  /-- "Failed to convert Url to file path". -/
  | urlToPathError : PError
  /-- "persistence key does not exist: {path}" in `try_read`. -/
  | keyNotExist : PError
  /-- "Unsupported scheme for persistence key: {scheme}". -/
  | unsupportedScheme (s : String) : PError
  /-- An `std::io::Error` propagated by `?` from `std::fs` calls. -/
  | ioError : PError
  /-- `postcard::from_bytes` failure propagated by `?`. -/
  | decodeError : PError
  /-- `postcard::to_stdvec` failure propagated by `?`. -/
  | encodeError : PError
  /-- "persistence key exists but is not a directory: {path}" in `try_write`. -/
  | notADirectory : PError
deriving DecidableEq, Repr

/-- Outcome of an operation: normal return, `Err` return, or a Rust panic
(the registry read lock is taken with `.unwrap()`, which panics when the
lock is poisoned). -/
inductive Res (α : Type) : Type where
  | ok (a : α) : Res α
  | err (e : PError) : Res α
  | panicked : Res α
deriving DecidableEq, Repr

/-- A persistence key: URL-like locator. `host` models the authority part;
`url::Url::to_file_path` fails for `file` URLs with a non-empty host. -/
structure Url where
  scheme : String
  host : String
  path : List String
deriving DecidableEq, Repr

/-- `url::Url::to_file_path`: succeeds (yielding the path) only for URLs
whose host is empty. -/
def Url.toFilePath (u : Url) : Option (List String) :=
  if u.host = "" then some u.path else none

/-- A file-system node: a regular file with its byte content, or a directory. -/
inductive FsNode : Type where
  | file (data : List Nat) : FsNode
  | dir : FsNode
deriving DecidableEq, Repr

/-- Abstract file system: finite map from paths (segment lists) to nodes.
Models the slice of `std::fs` behaviour that `try_read`/`try_write` use. -/
structure Fs where
  entries : List (List String × FsNode)
deriving DecidableEq, Repr

/-- Node stored at a path, if any. -/
def Fs.find (fs : Fs) (p : List String) : Option FsNode :=
  (fs.entries.find? (fun e => e.1 = p)).map (fun e => e.2)

/-- `Path::exists`. -/
def Fs.existsAt (fs : Fs) (p : List String) : Bool :=
  (fs.find p).isSome

/-- `Path::is_dir`. -/
def Fs.isDir (fs : Fs) (p : List String) : Bool :=
  fs.find p = some FsNode.dir

/-- Replace (or create) the node at a path. -/
def Fs.setNode (fs : Fs) (p : List String) (n : FsNode) : Fs :=
  ⟨(p, n) :: fs.entries.filter (fun e => e.1 ≠ p)⟩

/-- `std::fs::read`: the bytes of the regular file at `p`, failing when
the path is absent or a directory. -/
def Fs.readFile (fs : Fs) (p : List String) : Option (List Nat) :=
  match fs.find p with
  | some (FsNode.file d) => some d
  | _ => none

/-- `std::fs::create_dir_all` at the key path (called only when the path
is absent): marks the path as a directory. -/
def Fs.createDirAll (fs : Fs) (p : List String) : Fs :=
  fs.setNode p FsNode.dir

/-- `std::fs::write`: create or overwrite the regular file at `p`. -/
def Fs.writeFile (fs : Fs) (p : List String) (d : List Nat) : Fs :=
  fs.setNode p (FsNode.file d)

/-- Modelled from the spec: the source file `bi_hash_map.rs` is declared by
`lib.rs` (`pub mod bi_hash_map; pub use bi_hash_map::BiHashMap;`) but is
not present in the repository snapshot, so the container is modelled from
spec §4.1: a bidirectional one-to-one associative container. -/
structure BiHashMap (K V : Type) where
  pairs : List (K × V)
deriving DecidableEq, Repr

/-- Modelled from the spec: `BiHashMap::new()`. -/
def BiHashMap.empty {K V : Type} : BiHashMap K V := ⟨[]⟩

/-- Modelled from the spec: `insert(k, v) -> Option<(K,V)>` "inserts the
pair, evicting and returning any existing pair that shared either `k` or
`v`"; every pair sharing either side is removed, and the first such pair
(if any) is returned to the caller. -/
def BiHashMap.insert {K V : Type} [DecidableEq K] [DecidableEq V]
    (m : BiHashMap K V) (k : K) (v : V) : BiHashMap K V × Option (K × V) :=
  let evicted := m.pairs.find? (fun p => p.1 = k ∨ p.2 = v)
  let kept := m.pairs.filter (fun p => p.1 ≠ k ∧ p.2 ≠ v)
  (⟨kept ++ [(k, v)]⟩, evicted)

/-- Modelled from the spec: forward lookup `get_right : &K -> Option<&V>`
(the macro calls `registry.get_right(persistence_key)`). -/
def BiHashMap.getRight {K V : Type} [DecidableEq K]
    (m : BiHashMap K V) (k : K) : Option V :=
  (m.pairs.find? (fun p => p.1 = k)).map (fun p => p.2)

/-- Modelled from the spec: reverse lookup `get_left : &V -> Option<&K>`
(the macro calls `registry.get_left(&actor_ref.downgrade())`). -/
def BiHashMap.getLeft {K V : Type} [DecidableEq V]
    (m : BiHashMap K V) (v : V) : Option K :=
  (m.pairs.find? (fun p => p.2 = v)).map (fun p => p.1)

/-- The 1:1 invariant of the registry container: no two entries share a
key and no two entries share a value. -/
def BiHashMap.oneToOne {K V : Type} (m : BiHashMap K V) : Prop :=
  m.pairs.Pairwise (fun p q => p.1 ≠ q.1 ∧ p.2 ≠ q.2)

/-- Process state visible to one actor type's persistence machinery:
its static registry (the generated `…_REGISTRY` BiHashMap plus the
poisoned-or-not status of its `RwLock`), the runtime's live-actor set,
the state each spawned actor was constructed with, a fresh-id counter,
and the file system. `S` is the actor type (`Self`). -/
structure World (S : Type) where
  registry : BiHashMap Url Nat
  poisoned : Bool
  alive : List Nat
  states : List (Nat × S)
  nextId : Nat
  fs : Fs
deriving DecidableEq

/-- `WeakActorRef::upgrade`: succeeds exactly when the actor is alive. -/
def World.upgrade {S : Type} (w : World S) (id : Nat) : Option Nat :=
  if id ∈ w.alive then some id else none

/-- Construction state of an actor id, as recorded at spawn time. -/
def World.stateOf {S : Type} (w : World S) (id : Nat) : Option S :=
  (w.states.find? (fun e => e.1 = id)).map (fun e => e.2)

/-- Dropping the last strong handle: the actor terminates and its weak
handle stops upgrading. Registry entries are not touched. -/
def World.terminate {S : Type} (w : World S) (id : Nat) : World S :=
  { w with alive := w.alive.filter (fun a => a ≠ id) }

/-- Macro-generated `register_persistent` (kameo-persistence-macros
`src/lib.rs` lines 28–37): take the write lock (bailing with an error if
it is poisoned), downgrade the handle (identity on ids) and insert
`(key, weak)` into the BiMap; an evicted pair is only logged. -/
def registerPersistent {S : Type} (key : Url) (r : Nat) (w : World S) :
    Res Unit × World S :=
  if w.poisoned then (Res.err PError.lockError, w)
  else
    let (m, _old) := w.registry.insert key r
    (Res.ok (), { w with registry := m })

/-- Macro-generated `persistence_key` (lines 39–42): `read().unwrap()`
(panicking on a poisoned lock), then reverse lookup by the downgraded
handle. -/
def persistenceKey {S : Type} (w : World S) (r : Nat) : Res (Option Url) :=
  if w.poisoned then Res.panicked
  else Res.ok (w.registry.getLeft r)

/-- Macro-generated `lookup_persistent` (lines 44–49): `read().unwrap()`
(panicking on a poisoned lock), forward lookup, then attempt to upgrade
the stored weak handle. -/
def lookupPersistent {S : Type} (key : Url) (w : World S) : Res (Option Nat) :=
  if w.poisoned then Res.panicked
  else Res.ok ((w.registry.getRight key).bind (fun weak => w.upgrade weak))

/-- `try_read` (persistent_actor.rs lines 135–156): for the `file` scheme,
convert the URL to a path, fail if the path does not exist, then read the
payload file `index.bin` inside it; any other scheme is unsupported. -/
def tryRead (key : Url) (fs : Fs) : Res (List Nat) :=
  if key.scheme = "file" then
    match key.toFilePath with
    | none => Res.err PError.urlToPathError
    | some path =>
      if ¬ fs.existsAt path then Res.err PError.keyNotExist
      else
        match fs.readFile (path ++ ["index.bin"]) with
        | some d => Res.ok d
        | none => Res.err PError.ioError
  else Res.err (PError.unsupportedScheme key.scheme)

/-- `try_write` (persistent_actor.rs lines 159–195): first encode the
snapshot with `postcard::to_stdvec` (the trait method is generic over the
snapshot's `Serialize` impl, modelled by the `enc` parameter); then, for
the `file` scheme, create the directory if the path is absent, bail if it
exists but is not a directory, and write `index.bin` inside it; any other
scheme is unsupported. -/
def tryWrite {Snap : Type} (enc : Snap → Except Unit (List Nat))
    (key : Url) (snap : Snap) (fs : Fs) : Res Unit × Fs :=
  match enc snap with
  | Except.error _ => (Res.err PError.encodeError, fs)
  | Except.ok data =>
    if key.scheme = "file" then
      match key.toFilePath with
      | none => (Res.err PError.urlToPathError, fs)
      | some path =>
        if ¬ fs.existsAt path then
          (Res.ok (), (fs.createDirAll path).writeFile (path ++ ["index.bin"]) data)
        else if ¬ fs.isDir path then (Res.err PError.notADirectory, fs)
        else (Res.ok (), fs.writeFile (path ++ ["index.bin"]) data)
    else (Res.err (PError.unsupportedScheme key.scheme), fs)

/-- `save_snapshot` (lines 55–75): look up the actor's persistence key;
if it has none the save is skipped with `Ok(())`; otherwise build
`Self::Snapshot::from(self)` (`ofState`) and delegate to `try_write`. -/
def saveSnapshot {S Snap : Type} (enc : Snap → Except Unit (List Nat))
    (ofState : S → Snap) (self : S) (r : Nat) (w : World S) :
    Res Unit × World S :=
  match persistenceKey w r with
  | Res.panicked => (Res.panicked, w)
  | Res.err e => (Res.err e, w)
  | Res.ok none => (Res.ok (), w)
  | Res.ok (some key) =>
    let (res, fs1) := tryWrite enc key (ofState self) w.fs
    (res, { w with fs := fs1 })

/-- `Actor::spawn` via the runtime (assumed infallible, spec §6): allocate
a fresh id, mark it alive, and record the construction state `init args`
(`on_start`). -/
def spawnA {S Args : Type} (init : Args → S) (args : Args) (w : World S) :
    Nat × World S :=
  (w.nextId,
   { w with
     nextId := w.nextId + 1
     alive := w.nextId :: w.alive
     states := (w.nextId, init args) :: w.states })

/-- `spawn_persistent` (lines 78–89): spawn unconditionally from `args`,
then `register_persistent(key, &actor_ref)?`. -/
def spawnPersistent {S Args : Type} (init : Args → S) (key : Url)
    (args : Args) (w : World S) : Res Nat × World S :=
  let (r, w1) := spawnA init args w
  match registerPersistent key r w1 with
  | (Res.ok _, w2) => (Res.ok r, w2)
  | (Res.err e, w2) => (Res.err e, w2)
  | (Res.panicked, w2) => (Res.panicked, w2)

/-- `respawn_persistent` (lines 92–112): fast path through
`lookup_persistent`; otherwise `try_read`, decode with
`postcard::from_bytes` (`dec`), convert the snapshot into args
(`Into<Args>`, `toArgs`) and delegate to `spawn_persistent`; each `?`
short-circuits. -/
def respawnPersistent {S Snap Args : Type} (init : Args → S)
    (dec : List Nat → Except Unit Snap) (toArgs : Snap → Args)
    (key : Url) (w : World S) : Res Nat × World S :=
  match lookupPersistent key w with
  | Res.panicked => (Res.panicked, w)
  | Res.err e => (Res.err e, w)
  | Res.ok (some r) => (Res.ok r, w)
  | Res.ok none =>
    match tryRead key w.fs with
    | Res.err e => (Res.err e, w)
    | Res.panicked => (Res.panicked, w)
    | Res.ok data =>
      match dec data with
      | Except.error _ => (Res.err PError.decodeError, w)
      | Except.ok snap => spawnPersistent init key (toArgs snap) w

/-- `try_respawn_persistent` (lines 115–132): try `respawn_persistent`;
on `Err` log and fall back to `spawn_persistent(key, args)`; a panic
propagates past the `match`. -/
def tryRespawnPersistent {S Snap Args : Type} (init : Args → S)
    (dec : List Nat → Except Unit Snap) (toArgs : Snap → Args)
    (key : Url) (args : Args) (w : World S) : Res Nat × World S :=
  match respawnPersistent init dec toArgs key w with
  | (Res.ok r, w1) => (Res.ok r, w1)
  | (Res.err _, w1) => spawnPersistent init key args w1
  | (Res.panicked, w1) => (Res.panicked, w1)

/-! ### postcard serialization at the example actor

`examples/persistence.rs` derives `PersistentActor` for
`SubActor { data: String }` with the default snapshot type
(`Self as Actor::Args`, which for a derived simple actor is `Self`),
and `From<&SubActor> for SubActor` is `actor.clone()`. postcard encodes
a one-string-field struct as the LEB128 varint of the byte length
followed by the UTF-8 bytes. -/

/-- The example actor `SubActor` (its `data: String` field modelled as
its UTF-8 byte list). -/
structure SubActor where
  data : List Nat
deriving DecidableEq, Repr

/-- `Snapshot::from(&SubActor)`: the derived default uses the actor type
itself, and the example's `From` impl is `actor.clone()`. -/
def SubActor.snapshotFrom (a : SubActor) : SubActor := a

/-- `Into<Args>` for the default snapshot: identity. -/
def SubActor.snapshotIntoArgs (s : SubActor) : SubActor := s

/-- `on_start` for the derived actor: the args are the state. -/
def SubActor.init (args : SubActor) : SubActor := args

/-- postcard LEB128 varint encoding of an unsigned integer. -/
def varintEncode (n : Nat) : List Nat :=
  if h : n < 128 then [n]
  else (n % 128 + 128) :: varintEncode (n / 128)
termination_by n
decreasing_by exact Nat.div_lt_self (by omega) (by omega)

/-- postcard LEB128 varint decoding: value plus remaining bytes. -/
def varintDecode : List Nat → Option (Nat × List Nat)
  | [] => none
  | b :: rest =>
    if b < 128 then some (b, rest)
    else
      match varintDecode rest with
      | none => none
      | some (n, r) => some (n * 128 + (b - 128), r)

/-- `postcard::to_stdvec` at `SubActor`: varint byte length, then the
bytes. Total (string serialization cannot fail). -/
def pencode (s : SubActor) : Except Unit (List Nat) :=
  Except.ok (varintEncode s.data.length ++ s.data)

/-- `postcard::from_bytes` at `SubActor`: read the varint length, then
that many bytes; fail on malformed input. -/
def pdecode (bs : List Nat) : Except Unit SubActor :=
  match varintDecode bs with
  | none => Except.error ()
  | some (len, rest) =>
    if len ≤ rest.length then Except.ok ⟨rest.take len⟩
    else Except.error ()

/-! ### Helper lemmas -/

/-- Decoding a varint-encoded value from the front of a byte stream
recovers the value and leaves the rest untouched. -/
theorem varintDecode_encode (n : Nat) :
    ∀ rest, varintDecode (varintEncode n ++ rest) = some (n, rest) := by
  induction n using Nat.strong_induction_on with
  | _ n ih =>
    intro rest
    rw [varintEncode]
    by_cases h : n < 128
    · simp [h, varintDecode]
    · have hb : ¬ (n % 128 + 128 < 128) := by omega
      have ihr := ih (n / 128) (Nat.div_lt_self (by omega) (by omega)) rest
      simp [h, varintDecode, hb, ihr]
      omega

/-- `find?` over a list ending in a single extra element, when nothing
before it matches. -/
theorem find?_append_singleton {α : Type} (l : List α) (p : α → Bool) (x : α)
    (h : ∀ a ∈ l, p a = false) :
    (l ++ [x]).find? p = if p x then some x else none := by
  induction l with
  | nil => cases hx : p x <;> simp [List.find?, hx]
  | cons a t ihl =>
    have ha : p a = false := h a (by simp)
    simp only [List.cons_append, List.find?_cons, ha]
    exact ihl (fun b hb => h b (by simp [hb]))

/-! ### Claims -/

/-- C8: round-trip law — for every actor state `s`, decoding the encoded
snapshot yields the original snapshot: `decode (encode (Snapshot::from s))
= Snapshot::from s`, for the postcard codec used by `try_write` and
`respawn_persistent`, instantiated at the example actor `SubActor`. -/
theorem c8_snapshot_roundtrip (a : SubActor) :
    ∃ bs, pencode (SubActor.snapshotFrom a) = Except.ok bs ∧
      pdecode bs = Except.ok (SubActor.snapshotFrom a) := by
  refine ⟨varintEncode a.data.length ++ a.data, rfl, ?_⟩
  simp [pdecode, varintDecode_encode, SubActor.snapshotFrom]

/-- C5: `register_persistent` downgrades the handle and inserts the pair
into the type's BiMap under the write lock; it fails exactly when the
lock is poisoned, and otherwise succeeds regardless of any existing
association on either side (collisions are resolved by eviction, not by
an error). -/
theorem c5_register_only_lock_fails {S : Type} (w : World S) (key : Url)
    (h : Nat) :
    (w.poisoned = true →
      registerPersistent key h w = (Res.err PError.lockError, w)) ∧
    (w.poisoned = false →
      registerPersistent key h w =
        (Res.ok (), { w with registry := (w.registry.insert key h).1 })) := by
  constructor
  · intro hp
    simp [registerPersistent, hp]
  · intro hp
    simp [registerPersistent, hp, BiHashMap.insert]

/-- C5 witness: a concrete registration with a colliding key still
succeeds. -/
theorem c5_register_only_lock_fails_witness :
    registerPersistent (S := Unit) ⟨"file", "", ["k"]⟩ 7
        ⟨⟨[(⟨"file", "", ["k"]⟩, 3)]⟩, false, [3], [], 8, ⟨[]⟩⟩ =
      (Res.ok (), ⟨⟨[(⟨"file", "", ["k"]⟩, 7)]⟩, false, [3], [], 8, ⟨[]⟩⟩) := by
  have h := (c5_register_only_lock_fails (S := Unit)
    ⟨⟨[(⟨"file", "", ["k"]⟩, 3)]⟩, false, [3], [], 8, ⟨[]⟩⟩
    ⟨"file", "", ["k"]⟩ 7).2 rfl
  rw [h]
  decide

/-- C10: on a poisoned registry lock, `persistence_key` and
`lookup_persistent` panic (they take the read lock with `.unwrap()`),
while `register_persistent` returns an error instead (it matches on the
write-lock result and bails). -/
theorem c10_poisoned_lock {S : Type} (w : World S) (key : Url) (r : Nat)
    (hp : w.poisoned = true) :
    persistenceKey w r = Res.panicked ∧
    lookupPersistent key w = Res.panicked ∧
    registerPersistent key r w = (Res.err PError.lockError, w) := by
  refine ⟨?_, ?_, ?_⟩ <;> simp [persistenceKey, lookupPersistent,
    registerPersistent, hp]

/-- C10 witness: concrete poisoned world. -/
theorem c10_poisoned_lock_witness :
    persistenceKey (S := Unit) ⟨⟨[]⟩, true, [], [], 0, ⟨[]⟩⟩ 0 = Res.panicked ∧
    lookupPersistent (S := Unit) ⟨"file", "", ["k"]⟩
        ⟨⟨[]⟩, true, [], [], 0, ⟨[]⟩⟩ = Res.panicked ∧
    registerPersistent (S := Unit) ⟨"file", "", ["k"]⟩ 0
        ⟨⟨[]⟩, true, [], [], 0, ⟨[]⟩⟩ =
      (Res.err PError.lockError, ⟨⟨[]⟩, true, [], [], 0, ⟨[]⟩⟩) :=
  c10_poisoned_lock ⟨⟨[]⟩, true, [], [], 0, ⟨[]⟩⟩ ⟨"file", "", ["k"]⟩ 0 rfl

/-- C6: `save_snapshot` on an actor with no registry entry
(`persistence_key` returns `None`) returns success immediately — the
whole world, file system included, is unchanged, so no snapshot is
built, encoded, or written. -/
theorem c6_save_snapshot_noop {S Snap : Type}
    (enc : Snap → Except Unit (List Nat)) (ofState : S → Snap)
    (self : S) (r : Nat) (w : World S)
    (h : persistenceKey w r = Res.ok none) :
    saveSnapshot enc ofState self r w = (Res.ok (), w) := by
  simp [saveSnapshot, h]

/-- C6 witness: saving a `SubActor` whose handle was never registered
leaves the world untouched. -/
theorem c6_save_snapshot_noop_witness :
    persistenceKey (S := SubActor) ⟨⟨[]⟩, false, [0], [(0, ⟨[1]⟩)], 1, ⟨[]⟩⟩ 0 =
        Res.ok none ∧
    saveSnapshot pencode SubActor.snapshotFrom ⟨[1]⟩ 0
        ⟨⟨[]⟩, false, [0], [(0, ⟨[1]⟩)], 1, ⟨[]⟩⟩ =
      (Res.ok (), ⟨⟨[]⟩, false, [0], [(0, ⟨[1]⟩)], 1, ⟨[]⟩⟩) :=
  ⟨by decide, c6_save_snapshot_noop pencode SubActor.snapshotFrom ⟨[1]⟩ 0
    ⟨⟨[]⟩, false, [0], [(0, ⟨[1]⟩)], 1, ⟨[]⟩⟩ (by decide)⟩

/-- C2: the registry's BiMap keeps a 1:1 relation: insertion preserves
the at-most-one-entry-per-key / per-handle invariant, `insert k v` evicts
(and hands back) an existing pair sharing either side, and in the
concrete scenario `register(k, h1); register(k, h2)` with `h1` still
alive, `persistence_key h1` afterwards is `None` while
`persistence_key h2` is `Some k`. -/
theorem c2_registry_one_to_one {S : Type}
    (m : BiHashMap Url Nat) (k : Url) (v : Nat)
    (w : World S) (key : Url) (h1 h2 : Nat)
    (hp : w.poisoned = false) (hne : h1 ≠ h2) (_halive : h1 ∈ w.alive) :
    (m.oneToOne → ((m.insert k v).1).oneToOne) ∧
    (∀ pr, (m.insert k v).2 = some pr → pr ∈ m.pairs ∧ (pr.1 = k ∨ pr.2 = v)) ∧
    ((∃ pr ∈ m.pairs, pr.1 = k ∨ pr.2 = v) → ((m.insert k v).2).isSome = true) ∧
    (persistenceKey
        ((registerPersistent key h2 ((registerPersistent key h1 w).2)).2) h1 =
      Res.ok none ∧
     persistenceKey
        ((registerPersistent key h2 ((registerPersistent key h1 w).2)).2) h2 =
      Res.ok (some key)) := by
  refine ⟨?_, ?_, ?_, ?_⟩
  · intro hm
    unfold BiHashMap.oneToOne BiHashMap.insert at *
    simp only
    apply List.pairwise_append.mpr
    refine ⟨hm.sublist (List.filter_sublist _), by simp, ?_⟩
    intro a ha b hb
    simp only [List.mem_singleton] at hb
    subst hb
    have hq := List.of_mem_filter ha
    simp only [decide_eq_true_eq] at hq
    exact hq
  · intro pr hpr
    unfold BiHashMap.insert at hpr
    simp only at hpr
    refine ⟨List.mem_of_find?_eq_some hpr, ?_⟩
    have := List.find?_some hpr
    simpa using this
  · rintro ⟨pr, hmem, hor⟩
    unfold BiHashMap.insert
    simp only
    cases hf : m.pairs.find? (fun p => p.1 = k ∨ p.2 = v) with
    | some q => simp
    | none =>
      exfalso
      have := List.find?_eq_none.mp hf pr hmem
      simp only [decide_eq_true_eq] at this
      exact this hor
  · have hfind1 :
        (((w.registry.pairs.filter (fun p => p.1 ≠ key ∧ p.2 ≠ h1) ++
            [(key, h1)]).filter (fun p => p.1 ≠ key ∧ p.2 ≠ h2)) ++
          [(key, h2)]).find? (fun p => p.2 = h1) = none := by
      apply List.find?_eq_none.mpr
      intro x hx
      simp only [List.mem_append, List.mem_filter, List.mem_singleton,
        decide_eq_true_eq] at hx
      simp only [decide_eq_true_eq]
      rcases hx with ⟨⟨(⟨_, _, hv1⟩ | rfl), hk2, _⟩⟩ | rfl
      · exact hv1
      · exact absurd rfl hk2
      · exact fun hc => hne (hc ▸ rfl)
    have hfind2 :
        (((w.registry.pairs.filter (fun p => p.1 ≠ key ∧ p.2 ≠ h1) ++
            [(key, h1)]).filter (fun p => p.1 ≠ key ∧ p.2 ≠ h2)) ++
          [(key, h2)]).find? (fun p => p.2 = h2) = some (key, h2) := by
      rw [find?_append_singleton]
      · simp
      · intro x hx
        have hq := List.of_mem_filter hx
        simp only [decide_eq_true_eq] at hq
        simp [hq.2]
    constructor
    · simp only [registerPersistent, hp, Bool.false_eq_true, if_false,
        BiHashMap.insert, persistenceKey, BiHashMap.getLeft]
      rw [hfind1]
      rfl
    · simp only [registerPersistent, hp, Bool.false_eq_true, if_false,
        BiHashMap.insert, persistenceKey, BiHashMap.getLeft]
      rw [hfind2]
      rfl

/-- C2 witness: concrete double registration under the same key. -/
theorem c2_registry_one_to_one_witness :
    persistenceKey (S := Unit)
        ((registerPersistent ⟨"file", "", ["k"]⟩ 2
          ((registerPersistent ⟨"file", "", ["k"]⟩ 1
            ⟨⟨[]⟩, false, [1, 2], [], 3, ⟨[]⟩⟩).2)).2) 1 = Res.ok none ∧
    persistenceKey (S := Unit)
        ((registerPersistent ⟨"file", "", ["k"]⟩ 2
          ((registerPersistent ⟨"file", "", ["k"]⟩ 1
            ⟨⟨[]⟩, false, [1, 2], [], 3, ⟨[]⟩⟩).2)).2) 2 =
      Res.ok (some ⟨"file", "", ["k"]⟩) :=
  (c2_registry_one_to_one (S := Unit) ⟨[]⟩ ⟨"file", "", ["k"]⟩ 0
    ⟨⟨[]⟩, false, [1, 2], [], 3, ⟨[]⟩⟩ ⟨"file", "", ["k"]⟩ 1 2
    rfl (by decide) (by decide)).2.2.2

/-- C4: `lookup_persistent` returns `None` both when the key has no
registry entry and when the entry's weak handle no longer upgrades
because the actor terminated — and in the latter case the BiMap entry is
still physically present (`get_right` still finds it). -/
theorem c4_lookup_dead_actor {S : Type} (w : World S) (key : Url) (h : Nat)
    (hp : w.poisoned = false) :
    (w.registry.getRight key = none → lookupPersistent key w = Res.ok none) ∧
    ((((registerPersistent key h w).2).terminate h).registry.getRight key =
        some h ∧
      lookupPersistent key (((registerPersistent key h w).2).terminate h) =
        Res.ok none) := by
  have hright :
      ((w.registry.pairs.filter (fun p => p.1 ≠ key ∧ p.2 ≠ h)) ++
        [(key, h)]).find? (fun p => p.1 = key) = some (key, h) := by
    rw [find?_append_singleton]
    · simp
    · intro x hx
      have hq := List.of_mem_filter hx
      simp only [decide_eq_true_eq] at hq
      simp [hq.1]
  refine ⟨?_, ?_, ?_⟩
  · intro habs
    simp [lookupPersistent, hp, habs]
  · simp only [registerPersistent, hp, Bool.false_eq_true, if_false,
      World.terminate, BiHashMap.insert, BiHashMap.getRight]
    rw [hright]
    rfl
  · simp only [registerPersistent, hp, Bool.false_eq_true, if_false,
      World.terminate, lookupPersistent, BiHashMap.insert, BiHashMap.getRight]
    rw [hright]
    simp [World.upgrade, List.mem_filter]

/-- C4 witness: a registered actor that terminates is no longer returned
by lookup although its registry entry survives. -/
theorem c4_lookup_dead_actor_witness :
    ((((registerPersistent (S := Unit) ⟨"file", "", ["k"]⟩ 4
          ⟨⟨[]⟩, false, [4], [], 5, ⟨[]⟩⟩).2).terminate 4).registry.getRight
        ⟨"file", "", ["k"]⟩ = some 4) ∧
    lookupPersistent (S := Unit) ⟨"file", "", ["k"]⟩
        (((registerPersistent ⟨"file", "", ["k"]⟩ 4
          ⟨⟨[]⟩, false, [4], [], 5, ⟨[]⟩⟩).2).terminate 4) = Res.ok none :=
  (c4_lookup_dead_actor (S := Unit) ⟨⟨[]⟩, false, [4], [], 5, ⟨[]⟩⟩
    ⟨"file", "", ["k"]⟩ 4 rfl).2

/-- C9: `try_write` encodes the snapshot before touching the file system
(`postcard::to_stdvec` on line 170 precedes the scheme match on line
172), so a failing encoder leaves storage completely unchanged — no
directory created, no file written — and the same holds through
`save_snapshot`. -/
theorem c9_encode_before_storage {S Snap : Type}
    (enc : Snap → Except Unit (List Nat)) (ofState : S → Snap)
    (key : Url) (snap : Snap) (fs : Fs) (self : S) (r : Nat) (w : World S) :
    (enc snap = Except.error () →
      tryWrite enc key snap fs = (Res.err PError.encodeError, fs)) ∧
    (persistenceKey w r = Res.ok (some key) →
      enc (ofState self) = Except.error () →
      saveSnapshot enc ofState self r w = (Res.err PError.encodeError, w)) := by
  constructor
  · intro h
    simp [tryWrite, h]
  · intro h1 h2
    simp [saveSnapshot, h1, tryWrite, h2]

/-- C9 witness: an always-failing encoder at a `file` key over an empty
file system writes nothing. -/
theorem c9_encode_before_storage_witness :
    tryWrite (fun _ : Unit => Except.error ()) ⟨"file", "", ["t"]⟩ () ⟨[]⟩ =
      (Res.err PError.encodeError, ⟨[]⟩) ∧
    saveSnapshot (S := Unit) (fun _ : Unit => Except.error ())
        (fun _ => ()) () 5
        ⟨⟨[(⟨"file", "", ["t"]⟩, 5)]⟩, false, [5], [], 6, ⟨[]⟩⟩ =
      (Res.err PError.encodeError,
        ⟨⟨[(⟨"file", "", ["t"]⟩, 5)]⟩, false, [5], [], 6, ⟨[]⟩⟩) :=
  ⟨(c9_encode_before_storage (S := Unit) (fun _ : Unit => Except.error ())
      (fun _ => ()) ⟨"file", "", ["t"]⟩ () ⟨[]⟩ () 5
      ⟨⟨[(⟨"file", "", ["t"]⟩, 5)]⟩, false, [5], [], 6, ⟨[]⟩⟩).1 rfl,
   (c9_encode_before_storage (fun _ : Unit => Except.error ())
      (fun _ => ()) ⟨"file", "", ["t"]⟩ () ⟨[]⟩ () 5
      ⟨⟨[(⟨"file", "", ["t"]⟩, 5)]⟩, false, [5], [], 6, ⟨[]⟩⟩).2
      (by decide) rfl⟩

/-- Looking up the path just written by `setNode` yields the new node. -/
theorem find_setNode_same (fs : Fs) (p : List String) (n : FsNode) :
    (fs.setNode p n).find p = some n := by
  simp [Fs.setNode, Fs.find, List.find?_cons]

/-- `setNode` leaves every other path unchanged. -/
theorem find_setNode_other (fs : Fs) (p q : List String) (n : FsNode)
    (h : q ≠ p) : (fs.setNode p n).find q = fs.find q := by
  have hstep : ∀ l : List (List String × FsNode),
      (l.filter (fun e => e.1 ≠ p)).find? (fun e => e.1 = q) =
        l.find? (fun e => e.1 = q) := by
    intro l
    induction l with
    | nil => rfl
    | cons a t ih =>
      by_cases ha : a.1 = p
      · rw [List.filter_cons_of_neg (by simp [ha]),
          List.find?_cons_of_neg _
            (by simp only [decide_eq_true_eq]
                exact fun hc => h (hc.symm.trans ha)),
          ih]
      · by_cases haq : a.1 = q
        · rw [List.filter_cons_of_pos (by simp [ha]),
            List.find?_cons_of_pos _ (by simp [haq]),
            List.find?_cons_of_pos _ (by simp [haq])]
        · rw [List.filter_cons_of_pos (by simp [ha]),
            List.find?_cons_of_neg _ (by simp [haq]),
            List.find?_cons_of_neg _ (by simp [haq]), ih]
  simp only [Fs.setNode, Fs.find]
  rw [List.find?_cons_of_neg _
    (by simp only [decide_eq_true_eq]; exact fun hc => h hc.symm), hstep]

/-- C7: the `file` backend of `try_write` creates the directory when the
key path is absent, fails with the not-a-directory error — leaving the
file system untouched — when the path exists as a non-directory, and
otherwise writes/overwrites the fixed-name payload `index.bin` inside
the directory; any other scheme makes both `try_read` and `try_write`
fail with the unsupported-scheme error. -/
theorem c7_file_backend {Snap : Type} (enc : Snap → Except Unit (List Nat))
    (key : Url) (snap : Snap) (fs : Fs) (data : List Nat)
    (henc : enc snap = Except.ok data) :
    (key.scheme ≠ "file" →
      tryRead key fs = Res.err (PError.unsupportedScheme key.scheme) ∧
      tryWrite enc key snap fs =
        (Res.err (PError.unsupportedScheme key.scheme), fs)) ∧
    (∀ path, key.scheme = "file" → key.toFilePath = some path →
      ((fs.existsAt path = false →
        tryWrite enc key snap fs =
          (Res.ok (),
            (fs.createDirAll path).writeFile (path ++ ["index.bin"]) data) ∧
        (tryWrite enc key snap fs).2.isDir path = true ∧
        (tryWrite enc key snap fs).2.readFile (path ++ ["index.bin"]) =
          some data) ∧
       (fs.existsAt path = true → fs.isDir path = false →
        tryWrite enc key snap fs = (Res.err PError.notADirectory, fs)) ∧
       (fs.isDir path = true →
        tryWrite enc key snap fs =
          (Res.ok (), fs.writeFile (path ++ ["index.bin"]) data) ∧
        (tryWrite enc key snap fs).2.readFile (path ++ ["index.bin"]) =
          some data))) := by
  have hpq : ∀ path : List String, path ≠ path ++ ["index.bin"] := by
    intro path hc
    have hlen := congrArg List.length hc
    simp at hlen
  refine ⟨?_, ?_⟩
  · intro hs
    constructor
    · simp [tryRead, hs]
    · simp [tryWrite, henc, hs]
  · intro path hs hpath
    refine ⟨?_, ?_, ?_⟩
    · intro habs
      have heq : tryWrite enc key snap fs =
          (Res.ok (),
            (fs.createDirAll path).writeFile (path ++ ["index.bin"]) data) := by
        simp [tryWrite, henc, hs, hpath, habs]
      refine ⟨heq, ?_, ?_⟩
      · rw [heq]
        simp only [Fs.isDir, Fs.writeFile, decide_eq_true_eq]
        rw [find_setNode_other _ _ _ _ (hpq path), Fs.createDirAll,
          find_setNode_same]
      · rw [heq]
        simp only [Fs.readFile, Fs.writeFile]
        rw [find_setNode_same]
    · intro hex hnd
      simp [tryWrite, henc, hs, hpath, hex, hnd]
    · intro hdir
      have hex : fs.existsAt path = true := by
        simp only [Fs.isDir, decide_eq_true_eq] at hdir
        simp [Fs.existsAt, hdir]
      have heq : tryWrite enc key snap fs =
          (Res.ok (), fs.writeFile (path ++ ["index.bin"]) data) := by
        simp [tryWrite, henc, hs, hpath, hex, hdir]
      refine ⟨heq, ?_⟩
      rw [heq]
      simp only [Fs.readFile, Fs.writeFile]
      rw [find_setNode_same]

/-- C7 witness: a non-`file` scheme is rejected by both storage
operations, and a write at an absent `file` path creates the directory
and the payload file. -/
theorem c7_file_backend_witness :
    (tryRead ⟨"s3", "", ["t"]⟩ ⟨[]⟩ =
      Res.err (PError.unsupportedScheme "s3") ∧
     tryWrite pencode ⟨"s3", "", ["t"]⟩ ⟨[1, 2]⟩ ⟨[]⟩ =
      (Res.err (PError.unsupportedScheme "s3"), ⟨[]⟩)) ∧
    (tryWrite pencode ⟨"file", "", ["t"]⟩ ⟨[1, 2]⟩ ⟨[]⟩).2.readFile
        (["t"] ++ ["index.bin"]) = some [2, 1, 2] := by
  have henc : pencode ⟨[1, 2]⟩ = Except.ok [2, 1, 2] := by
    simp [pencode, varintEncode]
  constructor
  · exact (c7_file_backend pencode ⟨"s3", "", ["t"]⟩ ⟨[1, 2]⟩ ⟨[]⟩ [2, 1, 2]
      henc).1 (by decide)
  · exact (((c7_file_backend pencode ⟨"file", "", ["t"]⟩ ⟨[1, 2]⟩ ⟨[]⟩
      [2, 1, 2] henc).2 ["t"] rfl rfl).1 (by decide)).2.2

/-- `spawn_persistent` never touches the file system. -/
theorem spawnPersistent_fs {S Args : Type} (init : Args → S) (key : Url)
    (args : Args) (w : World S) :
    (spawnPersistent init key args w).2.fs = w.fs := by
  simp only [spawnPersistent, spawnA, registerPersistent]
  by_cases hp : w.poisoned <;> simp [hp]

/-- On a healthy lock, `spawn_persistent` returns the freshly spawned id
and the world extended with the new actor and its registration. -/
theorem spawnPersistent_ok {S Args : Type} (init : Args → S) (key : Url)
    (args : Args) (w : World S) (hp : w.poisoned = false) :
    spawnPersistent init key args w =
      (Res.ok w.nextId,
        { registry := (w.registry.insert key w.nextId).1
          poisoned := false
          alive := w.nextId :: w.alive
          states := (w.nextId, init args) :: w.states
          nextId := w.nextId + 1
          fs := w.fs }) := by
  simp [spawnPersistent, spawnA, registerPersistent, hp]

/-- `try_read` is storage I/O: it returns bytes or an error, never a
panic. -/
theorem tryRead_ne_panicked (key : Url) (fs : Fs) :
    tryRead key fs ≠ Res.panicked := by
  unfold tryRead
  split
  · split
    · simp
    · split
      · simp
      · split <;> simp
  · simp

/-- C3: `respawn_persistent` is a strict linear pipeline with no retry:
it never writes to storage; a live handle from `lookup` is returned
immediately with the world unchanged (no storage I/O); otherwise a read
failure or a decode failure short-circuits to the caller with the world
unchanged; on success the decoded snapshot is converted to args and the
call is delegated to `spawn_persistent`. -/
theorem c3_respawn_linear_pipeline {S Snap Args : Type} (init : Args → S)
    (dec : List Nat → Except Unit Snap) (toArgs : Snap → Args)
    (key : Url) (w : World S) :
    ((respawnPersistent init dec toArgs key w).2.fs = w.fs) ∧
    (∀ r, lookupPersistent key w = Res.ok (some r) →
      respawnPersistent init dec toArgs key w = (Res.ok r, w)) ∧
    (lookupPersistent key w = Res.ok none →
      (∀ e, tryRead key w.fs = Res.err e →
        respawnPersistent init dec toArgs key w = (Res.err e, w)) ∧
      (∀ d, tryRead key w.fs = Res.ok d → dec d = Except.error () →
        respawnPersistent init dec toArgs key w =
          (Res.err PError.decodeError, w)) ∧
      (∀ d snap, tryRead key w.fs = Res.ok d → dec d = Except.ok snap →
        respawnPersistent init dec toArgs key w =
          spawnPersistent init key (toArgs snap) w)) := by
  refine ⟨?_, ?_, ?_⟩
  · cases hl : lookupPersistent key w with
    | panicked => simp [respawnPersistent, hl]
    | err e => simp [respawnPersistent, hl]
    | ok o =>
      cases o with
      | some r => simp [respawnPersistent, hl]
      | none =>
        cases hr : tryRead key w.fs with
        | err e => simp [respawnPersistent, hl, hr]
        | panicked => simp [respawnPersistent, hl, hr]
        | ok d =>
          cases hd : dec d with
          | error e => simp [respawnPersistent, hl, hr, hd]
          | ok snap =>
            simp only [respawnPersistent, hl, hr, hd]
            exact spawnPersistent_fs init key (toArgs snap) w
  · intro r hl
    simp [respawnPersistent, hl]
  · intro hl
    refine ⟨?_, ?_, ?_⟩
    · intro e hr
      simp [respawnPersistent, hl, hr]
    · intro d hr hd
      simp [respawnPersistent, hl, hr, hd]
    · intro d snap hr hd
      simp [respawnPersistent, hl, hr, hd]

/-- C3 witness: with an empty registry and a stored snapshot, the
respawn delegates to `spawn_persistent` on the decoded snapshot. -/
theorem c3_respawn_linear_pipeline_witness :
    respawnPersistent SubActor.init pdecode SubActor.snapshotIntoArgs
        ⟨"file", "", ["t"]⟩
        ⟨⟨[]⟩, false, [], [], 0,
          ⟨[(["t"], FsNode.dir), (["t", "index.bin"], FsNode.file [2, 1, 2])]⟩⟩ =
      spawnPersistent SubActor.init ⟨"file", "", ["t"]⟩
        (SubActor.snapshotIntoArgs ⟨[1, 2]⟩)
        ⟨⟨[]⟩, false, [], [], 0,
          ⟨[(["t"], FsNode.dir), (["t", "index.bin"], FsNode.file [2, 1, 2])]⟩⟩ :=
  ((c3_respawn_linear_pipeline SubActor.init pdecode SubActor.snapshotIntoArgs
      ⟨"file", "", ["t"]⟩
      ⟨⟨[]⟩, false, [], [], 0,
        ⟨[(["t"], FsNode.dir), (["t", "index.bin"], FsNode.file [2, 1, 2])]⟩⟩).2.2
    (by decide)).2.2 [2, 1, 2] ⟨[1, 2]⟩ (by decide) rfl

/-- C1: on a healthy lock, `try_respawn_persistent` never returns an
error: it yields some handle in every case; a live registered handle is
returned as-is; otherwise, when a valid snapshot is stored at the key,
the returned actor is constructed from the decoded snapshot's args, and
on any recovery failure (read error of any kind, including absent
location and unsupported scheme, or malformed data) it is constructed
from the caller-supplied default args. -/
theorem c1_try_respawn_never_errs {S Snap Args : Type} (init : Args → S)
    (dec : List Nat → Except Unit Snap) (toArgs : Snap → Args)
    (key : Url) (args : Args) (w : World S) (hp : w.poisoned = false) :
    (∃ r, (tryRespawnPersistent init dec toArgs key args w).1 = Res.ok r) ∧
    (∀ r, lookupPersistent key w = Res.ok (some r) →
      tryRespawnPersistent init dec toArgs key args w = (Res.ok r, w)) ∧
    (lookupPersistent key w = Res.ok none →
      (∀ d snap, tryRead key w.fs = Res.ok d → dec d = Except.ok snap →
        (tryRespawnPersistent init dec toArgs key args w).1 =
          Res.ok w.nextId ∧
        ((tryRespawnPersistent init dec toArgs key args w).2).stateOf
          w.nextId = some (init (toArgs snap))) ∧
      (∀ e, tryRead key w.fs = Res.err e →
        (tryRespawnPersistent init dec toArgs key args w).1 =
          Res.ok w.nextId ∧
        ((tryRespawnPersistent init dec toArgs key args w).2).stateOf
          w.nextId = some (init args)) ∧
      (∀ d, tryRead key w.fs = Res.ok d → dec d = Except.error () →
        (tryRespawnPersistent init dec toArgs key args w).1 =
          Res.ok w.nextId ∧
        ((tryRespawnPersistent init dec toArgs key args w).2).stateOf
          w.nextId = some (init args))) := by
  have hlu : lookupPersistent key w =
      Res.ok ((w.registry.getRight key).bind w.upgrade) := by
    simp [lookupPersistent, hp]
  have hstate : ∀ (a : Args),
      ((spawnPersistent init key a w).2).stateOf w.nextId =
        some (init a) := by
    intro a
    rw [spawnPersistent_ok init key a w hp]
    simp only [World.stateOf]
    rw [List.find?_cons_of_pos _ (by simp)]
    rfl
  refine ⟨?_, ?_, ?_⟩
  · cases hopt : (w.registry.getRight key).bind w.upgrade with
    | some r =>
      refine ⟨r, ?_⟩
      rw [hopt] at hlu
      simp [tryRespawnPersistent, respawnPersistent, hlu]
    | none =>
      rw [hopt] at hlu
      refine ⟨w.nextId, ?_⟩
      cases hr : tryRead key w.fs with
      | panicked => exact absurd hr (tryRead_ne_panicked key w.fs)
      | err e =>
        simp only [tryRespawnPersistent, respawnPersistent, hlu, hr]
        rw [spawnPersistent_ok init key args w hp]
      | ok d =>
        cases hd : dec d with
        | error e =>
          simp only [tryRespawnPersistent, respawnPersistent, hlu, hr, hd]
          rw [spawnPersistent_ok init key args w hp]
        | ok snap =>
          simp only [tryRespawnPersistent, respawnPersistent, hlu, hr, hd]
          rw [spawnPersistent_ok init key (toArgs snap) w hp]
  · intro r hl
    simp [tryRespawnPersistent, respawnPersistent, hl]
  · intro hl
    refine ⟨?_, ?_, ?_⟩
    · intro d snap hr hd
      have hresp : respawnPersistent init dec toArgs key w =
          spawnPersistent init key (toArgs snap) w := by
        simp [respawnPersistent, hl, hr, hd]
      have htr : tryRespawnPersistent init dec toArgs key args w =
          spawnPersistent init key (toArgs snap) w := by
        simp [tryRespawnPersistent, hresp,
          spawnPersistent_ok init key (toArgs snap) w hp]
      rw [htr]
      exact ⟨by rw [spawnPersistent_ok init key (toArgs snap) w hp],
        hstate (toArgs snap)⟩
    · intro e hr
      have hresp : respawnPersistent init dec toArgs key w =
          (Res.err e, w) := by
        simp [respawnPersistent, hl, hr]
      have htr : tryRespawnPersistent init dec toArgs key args w =
          spawnPersistent init key args w := by
        simp [tryRespawnPersistent, hresp]
      rw [htr]
      exact ⟨by rw [spawnPersistent_ok init key args w hp], hstate args⟩
    · intro d hr hd
      have hresp : respawnPersistent init dec toArgs key w =
          (Res.err PError.decodeError, w) := by
        simp [respawnPersistent, hl, hr, hd]
      have htr : tryRespawnPersistent init dec toArgs key args w =
          spawnPersistent init key args w := by
        simp [tryRespawnPersistent, hresp]
      rw [htr]
      exact ⟨by rw [spawnPersistent_ok init key args w hp], hstate args⟩

/-- C1 witness: with nothing registered and nothing stored, the call
still succeeds, delivering an actor built from the default args. -/
theorem c1_try_respawn_never_errs_witness :
    (∃ r, (tryRespawnPersistent SubActor.init pdecode
      SubActor.snapshotIntoArgs ⟨"file", "", ["t"]⟩ ⟨[5]⟩
      ⟨⟨[]⟩, false, [], [], 0, ⟨[]⟩⟩).1 = Res.ok r) :=
  (c1_try_respawn_never_errs SubActor.init pdecode SubActor.snapshotIntoArgs
    ⟨"file", "", ["t"]⟩ ⟨[5]⟩ ⟨⟨[]⟩, false, [], [], 0, ⟨[]⟩⟩ rfl).1

end KP
